import Mathlib

/-
Verification development for `ParallelChordGenerator.py`.

The Python class `ParallelChordGenerator` builds a catalog of major/minor
triad templates, enumerates the Cartesian product of the catalog with itself
`num_chords` times, and submits each progression to a thread pool, draining
completed futures whenever the in-flight list reaches `batch_size` and once
more after enumeration ends.

The shallow embedding below translates the pure parts of the source directly
(catalog construction, chord naming, filename construction, the total count,
the lazy product with its defensive cap) and models the stateful
submit/drain loop of `generate_all` as explicit state passing over a
dispatcher state.  External effects (the MIDI library, the filesystem, and
any exception raised inside a worker) are abstracted by a per-progression
oracle telling whether the body of `_save_single` raises.
-/

set_option linter.unusedVariables false

/-- Source: `self.major = [0, 4, 7]` — the major-triad interval shape. -/
def major : List Int := [0, 4, 7]

/-- Source: `self.minor = [0, 3, 7]` — the minor-triad interval shape. -/
def minor : List Int := [0, 3, 7]

/-- Source: `self.C4 = 48` — low end of the MIDI root range. -/
def C4 : Int := 48

/-- Source: `self.B4 = 59` — high end of the MIDI root range. -/
def B4 : Int := 59

/-- Source: the comprehension `[n + i for n in shape]` with root `i`:
one transposed template. -/
def mkTemplate (shape : List Int) (root : Int) : List Int :=
  shape.map (fun n => n + root)

/-- Python `range(low, high + 1)`: the inclusive integer root range
`[low, high]` as a list (empty when `high < low`, as in Python). -/
def rootRange (low high : Int) : List Int :=
  (List.range (high + 1 - low).toNat).map (fun (k : Nat) => low + (k : Int))

/-- Source: `self.templates = [[n + i for n in self.major] for i in range(C4, B4+1)]
 + [[n + i for n in self.minor] for i in range(C4, B4+1)]`, generalized over the
root range exactly as the spec's `build_catalog(low, high)` contract reads the
same comprehension: all major templates for the root range, then all minor
templates for the same range. -/
def build_catalog (low high : Int) : List (List Int) :=
  (rootRange low high).map (mkTemplate major) ++
  (rootRange low high).map (mkTemplate minor)

/-- Source: `self.templates`, the catalog at the fixed range `[C4, B4]`. -/
def templates : List (List Int) := build_catalog C4 B4

/-- Python `min(notes)` for a nonempty list (Python raises on the empty list;
the model returns 0 there — naming is only ever applied to 3-note chords). -/
def pyMin (xs : List Int) : Int :=
  match xs with
  | [] => 0
  | a :: as => as.foldl min a

/-- Stable insertion into a sorted list, the auxiliary step of `pySorted`. -/
def insertSorted (a : Int) : List Int → List Int
  | [] => [a]
  | b :: bs => if a ≤ b then a :: b :: bs else b :: insertSorted a bs

/-- Python `sorted(...)`: ascending stable sort (insertion sort). -/
def pySorted : List Int → List Int
  | [] => []
  | a :: as => insertSorted a (pySorted as)

/-- Source: `intervals = sorted(n - root for n in notes)` with
`root = min(notes)` in `_get_chord_name`. -/
def intervalsOf (notes : List Int) : List Int :=
  pySorted (notes.map (fun n => n - pyMin notes))

/-- Source: `chord_type = "major" if intervals == [0, 4, 7] else "minor"` in
`_get_chord_name`: every non-major interval pattern is labelled "minor". -/
def chordTypeOf (notes : List Int) : String :=
  if intervalsOf notes = [0, 4, 7] then "major" else "minor"

/-- Modelled from the spec: the external pitch-naming utility
(`music21.pitch.Pitch(p).name`, not part of this repository) — given a MIDI
note number it returns the canonical note name of its pitch class, using the
library's default accidental spelling, in which the flat accidental is
rendered with the internal marker "-" (e.g. pitch class 3 is "E-"). -/
def pitchNameRaw (p : Int) : String :=
  match (p % 12).toNat with
  | 0 => "C"
  | 1 => "C#"
  | 2 => "D"
  | 3 => "E-"
  | 4 => "E"
  | 5 => "F"
  | 6 => "F#"
  | 7 => "G"
  | 8 => "G#"
  | 9 => "A"
  | 10 => "B-"
  | _ => "B"

/-- Python `s.replace("-", "b")` for the one-character pattern "-":
character-wise substitution of "-" by "b". -/
def replaceDash (s : String) : String :=
  String.mk (s.data.map (fun c => if c = '-' then 'b' else c))

/-- Source: `ParallelChordGenerator._get_chord_name`:
`f"{pitch.Pitch(root).name.replace('-', 'b')}_{chord_type}"` with
`root = min(notes)`. -/
def get_chord_name (notes : List Int) : String :=
  replaceDash (pitchNameRaw (pyMin notes)) ++ "_" ++ chordTypeOf notes

/-- Python `sep.join(parts)`. -/
def pyJoin (sep : String) (parts : List String) : String :=
  match parts with
  | [] => ""
  | p :: ps => ps.foldl (fun acc x => acc ++ sep ++ x) p

/-- Source: `filename = "-".join(chord_names) + ".mid"` in `_save_single`. -/
def filenameOf (progression : List (List Int)) : String :=
  pyJoin "-" (progression.map get_chord_name) ++ ".mid"

/-- Source: `os.path.join(output_dir, filename)` in `_save_single`, for a
directory without trailing separator and a relative filename. -/
def savePath (output_dir : String) (progression : List (List Int)) : String :=
  output_dir ++ "/" ++ filenameOf progression

/-- Source: `ParallelChordGenerator._save_single`.  The body computes the
chord names and the filename (`filenameOf`), builds a stream and writes it to
`savePath output_dir progression`; the external write and any exception raised
anywhere inside the `try` block (naming, serialization, or the file write) are
abstracted by the oracle `renderRaises`.  The bare `except` returns `False`
exactly when the body raised, `True` otherwise. -/
def save_single (renderRaises : List (List Int) → Bool)
    (progression : List (List Int)) : Bool :=
  if renderRaises progression then false else true

/-- State of the coordinating loop of `generate_all`: the `futures` list of
in-flight units (each carrying the boolean its worker will return), the
results already drained (the progress counter is their number), and the trace
of in-flight counts observed after every append to `futures` and after every
drain. -/
structure DState where
  futures : List Bool
  results : List Bool
  trace : List Nat
deriving Repr, DecidableEq

/-- Source: `for future in as_completed(futures): pbar.update(1);
futures.remove(future)` (and the identical final loop): `as_completed`
iterates over a snapshot of the whole list, so every in-flight unit resolves,
advances progress by one, and leaves the in-flight list empty. -/
def drainCompleted (st : DState) : DState :=
  { futures := [], results := st.results ++ st.futures, trace := st.trace ++ [0] }

/-- One iteration of the submission loop of `generate_all`:
`futures.append(executor.submit(...))` followed by
`if len(futures) >= batch_size: <drain>`. -/
def submitOne (bs : Nat) (st : DState) (r : Bool) : DState :=
  let st1 : DState :=
    { st with futures := st.futures ++ [r],
              trace := st.trace ++ [st.futures.length + 1] }
  if bs ≤ st1.futures.length then drainCompleted st1 else st1

/-- The whole `for i, combo in enumerate(all_combinations)` loop, iterated
over the boolean outcome of each submitted unit. -/
def dispatchLoop (bs : Nat) (rs : List Bool) (st : DState) : DState :=
  rs.foldl (submitOne bs) st

/-- The submission loop followed by the final drain
(`for future in as_completed(futures): pbar.update(1)`), starting from the
empty in-flight list. -/
def runDispatch (bs : Nat) (rs : List Bool) : DState :=
  drainCompleted (dispatchLoop bs rs ⟨[], [], [0]⟩)

/-- Source: `all_combinations = itertools.product(self.templates,
repeat=num_chords)` — tuples in lexicographic order, leftmost position
varying slowest. -/
def productRepeat (catalog : List (List Int)) : Nat → List (List (List Int))
  | 0 => [[]]
  | n + 1 =>
      catalog.flatMap (fun x => (productRepeat catalog n).map (fun rest => x :: rest))

/-- Source: the defensive cap `if i >= total: break` inside the enumeration
loop — only the first `total` produced combinations are submitted. -/
def capSubmit (total : Nat) (combos : List (List (List Int))) :
    List (List (List Int)) :=
  combos.take total

/-- Source: `batch_size = 1000  # 每1000个任务提交一次` — a constant fixed
inside `generate_all`, not a parameter. -/
def batch_size : Nat := 1000

/-- The list of progressions actually submitted by `generate_all`: the lazy
product capped at `total = len(self.templates) ** num_chords`. -/
def submittedUnits (num_chords : Nat) : List (List (List Int)) :=
  capSubmit (templates.length ^ num_chords) (productRepeat templates num_chords)

/-- The drained worker results of a whole run of `generate_all`. -/
def runResults (renderRaises : List (List Int) → Bool) (num_chords : Nat) :
    List Bool :=
  (runDispatch batch_size
    ((submittedUnits num_chords).map (save_single renderRaises))).results

/-- The spec's Run Summary: the requested total and the number of units
processed (the final value of the progress counter). -/
structure RunSummary where
  total : Nat
  processed : Nat
deriving Repr, DecidableEq

/-- Source: `ParallelChordGenerator.generate_all`.  Computes
`total = len(self.templates) ** num_chords`, submits the capped lazy product
through the batched dispatch loop, and ends with the progress counter equal to
the number of drained units; the Python function conveys the Run Summary
through its observables (the progress bar created with `total=total` and
advanced once per completed unit, and the final printed summary line), which
the model returns as a value.  `output_dir` and `max_workers` only feed the
abstracted external effects (directory creation, pool size) and do not affect
the summary. -/
def generate_all (renderRaises : List (List Int) → Bool) (num_chords : Nat)
    (output_dir : String) (max_workers : Nat) : RunSummary :=
  let all_combinations := productRepeat templates num_chords
  let total := templates.length ^ num_chords
  let submitted := capSubmit total all_combinations
  let st := runDispatch batch_size (submitted.map (save_single renderRaises))
  { total := total, processed := st.results.length }

/-- Source: the default `num_chords=4` in the signature of `generate_all`. -/
def default_num_chords : Nat := 4

/-- Source: the default `output_dir="chord_output"` in the signature of
`generate_all` (the `__main__` invocation passes "chord_progressions"
explicitly). -/
def default_output_dir : String := "chord_output"

/-- Source: the default `max_workers=8` in the signature of `generate_all`. -/
def default_max_workers : Nat := 8

/-- Invariant of the submission loop: strictly fewer than `bs` units are in
flight at the top of each iteration, and every in-flight count recorded so far
is at most `bs`. -/
def DInv (bs : Nat) (st : DState) : Prop :=
  st.futures.length < bs ∧ ∀ c ∈ st.trace, c ≤ bs

lemma dispatchLoop_cons (bs : Nat) (r : Bool) (rs : List Bool) (st : DState) :
    dispatchLoop bs (r :: rs) st = dispatchLoop bs rs (submitOne bs st r) := rfl

lemma submitOne_inv (bs : Nat) (r : Bool) (st : DState) (h : DInv bs st)
    (hbs : 1 ≤ bs) : DInv bs (submitOne bs st r) := by
  obtain ⟨h1, h2⟩ := h
  simp only [submitOne]
  split
  · constructor
    · simpa [drainCompleted] using hbs
    · intro c hc
      simp [drainCompleted] at hc
      rcases hc with hc | hc | hc
      · exact h2 c hc
      · omega
      · omega
  · rename_i hcond
    constructor
    · simp only [List.length_append, List.length_cons, List.length_nil] at hcond ⊢
      omega
    · intro c hc
      simp at hc
      rcases hc with hc | hc
      · exact h2 c hc
      · omega

lemma dispatchLoop_inv (bs : Nat) (rs : List Bool) (st : DState) (h : DInv bs st)
    (hbs : 1 ≤ bs) : DInv bs (dispatchLoop bs rs st) := by
  induction rs generalizing st with
  | nil => exact h
  | cons r rs ih =>
      rw [dispatchLoop_cons]
      exact ih _ (submitOne_inv bs r st h hbs)

lemma dispatchLoop_flow (bs : Nat) (rs : List Bool) (st : DState) :
    (dispatchLoop bs rs st).results ++ (dispatchLoop bs rs st).futures =
      st.results ++ st.futures ++ rs := by
  induction rs generalizing st with
  | nil => simp [dispatchLoop]
  | cons r rs ih =>
      rw [dispatchLoop_cons, ih]
      simp only [submitOne]
      split <;> simp [drainCompleted]

lemma runDispatch_results (bs : Nat) (rs : List Bool) :
    (runDispatch bs rs).results = rs := by
  have h := dispatchLoop_flow bs rs ⟨[], [], [0]⟩
  simp at h
  simp [runDispatch, drainCompleted, h]

lemma runDispatch_futures (bs : Nat) (rs : List Bool) :
    (runDispatch bs rs).futures = [] := rfl

lemma runDispatch_trace_bounded (bs : Nat) (rs : List Bool) (hbs : 1 ≤ bs) :
    ∀ c ∈ (runDispatch bs rs).trace, c ≤ bs := by
  have h0 : DInv bs ⟨[], [], [0]⟩ := by
    constructor
    · simpa using hbs
    · intro c hc
      simp at hc
      omega
  have h := dispatchLoop_inv bs rs ⟨[], [], [0]⟩ h0 hbs
  intro c hc
  simp [runDispatch, drainCompleted] at hc
  rcases hc with hc | hc
  · exact h.2 c hc
  · omega

lemma pyMin_major (root : Int) : pyMin (mkTemplate major root) = 0 + root := by
  simp [pyMin, mkTemplate, major]

lemma intervalsOf_major (root : Int) :
    intervalsOf (mkTemplate major root) = [0, 4, 7] := by
  have h1 : (mkTemplate major root).map
      (fun n => n - pyMin (mkTemplate major root)) = [0, 4, 7] := by
    rw [pyMin_major]
    simp [mkTemplate, major]
  unfold intervalsOf
  rw [h1]
  decide

lemma pyMin_minor (root : Int) : pyMin (mkTemplate minor root) = 0 + root := by
  simp [pyMin, mkTemplate, minor]

lemma intervalsOf_minor (root : Int) :
    intervalsOf (mkTemplate minor root) = [0, 3, 7] := by
  have h1 : (mkTemplate minor root).map
      (fun n => n - pyMin (mkTemplate minor root)) = [0, 3, 7] := by
    rw [pyMin_minor]
    simp [mkTemplate, minor]
  unfold intervalsOf
  rw [h1]
  decide

lemma productRepeat_length (catalog : List (List Int)) (n : Nat) :
    (productRepeat catalog n).length = catalog.length ^ n := by
  induction n with
  | zero => simp [productRepeat]
  | succ n ih =>
      simp [productRepeat, List.length_flatMap, Function.comp_def, ih, pow_succ,
        List.map_const, List.sum_replicate, smul_eq_mul, mul_comm]

lemma submittedUnits_length (num_chords : Nat) :
    (submittedUnits num_chords).length = templates.length ^ num_chords := by
  simp [submittedUnits, capSubmit, List.length_take, productRepeat_length]

lemma count_true_add_count_false (l : List Bool) :
    l.count true + l.count false = l.length := by
  induction l with
  | nil => simp
  | cons b l ih =>
      cases b <;> simp [List.count_cons] <;> omega

lemma rootRange_mem (low high r : Int) (h : r ∈ rootRange low high) :
    low ≤ r ∧ r ≤ high := by
  simp [rootRange] at h
  obtain ⟨k, hk, rfl⟩ := h
  omega

lemma rootRange_length (low high : Int) (h : low ≤ high) :
    (rootRange low high).length = (high - low + 1).toNat := by
  have h1 : (rootRange low high).length = (high + 1 - low).toNat := by
    unfold rootRange
    exact (List.length_map _ _).trans (List.length_range _)
  omega

lemma runResults_eq (renderRaises : List (List Int) → Bool) (num_chords : Nat) :
    runResults renderRaises num_chords =
      (submittedUnits num_chords).map (save_single renderRaises) := by
  unfold runResults
  exact runDispatch_results _ _

lemma generate_all_processed (renderRaises : List (List Int) → Bool)
    (num_chords : Nat) (output_dir : String) (max_workers : Nat) :
    (generate_all renderRaises num_chords output_dir max_workers).processed =
      (runResults renderRaises num_chords).length := rfl

/-- C1: Throughout any execution of the dispatch loop of `generate_all`, the
number of submitted-but-unresolved Work Units never exceeds the cap: every
in-flight count in the execution trace is at most the cap; the progress
counter advances by one per resolved unit (the drained results are exactly one
per submitted unit); after enumeration ends the final drain resolves every
remaining in-flight unit; and all of this holds in particular for the actual
workload of `generate_all` at the program's `batch_size`. -/
theorem C1_inflight_never_exceeds_batch_size (bs : Nat) (rs : List Bool)
    (hbs : 1 ≤ bs) :
    (∀ c ∈ (runDispatch bs rs).trace, c ≤ bs) ∧
    (runDispatch bs rs).results.length = rs.length ∧
    (runDispatch bs rs).futures = [] ∧
    (∀ (renderRaises : List (List Int) → Bool) (num_chords : Nat),
      ∀ c ∈ (runDispatch batch_size
        ((submittedUnits num_chords).map (save_single renderRaises))).trace,
        c ≤ batch_size) := by
  refine ⟨runDispatch_trace_bounded bs rs hbs, ?_, runDispatch_futures bs rs, ?_⟩
  · rw [runDispatch_results]
  · intro renderRaises num_chords
    exact runDispatch_trace_bounded batch_size _ (by decide)

/-- Witness for C1 at the concrete cap 2 and three unit outcomes. -/
theorem C1_witness :
    1 ≤ 2 ∧ (∀ c ∈ (runDispatch 2 [true, false, true]).trace, c ≤ 2) :=
  ⟨by decide, (C1_inflight_never_exceeds_batch_size 2 [true, false, true]
    (by decide)).1⟩

/-- C2: For every `num_chords ≥ 1`, `generate_all` computes
`total = len(templates) ** num_chords` by pure integer exponentiation and
submits exactly `total` Work Units; the defensive cap never lets the number of
submitted units exceed `total` whatever list the lazy product produced; and
for `num_chords = 1` exactly `len(templates)` units are submitted. -/
theorem C2_total_and_submission_cap (num_chords : Nat) (h : 1 ≤ num_chords) :
    (∀ (renderRaises : List (List Int) → Bool) (output_dir : String)
        (max_workers : Nat),
      (generate_all renderRaises num_chords output_dir max_workers).total =
        templates.length ^ num_chords) ∧
    (submittedUnits num_chords).length = templates.length ^ num_chords ∧
    (∀ combos : List (List (List Int)),
      (capSubmit (templates.length ^ num_chords) combos).length ≤
        templates.length ^ num_chords) ∧
    (submittedUnits 1).length = templates.length := by
  refine ⟨fun _ _ _ => rfl, submittedUnits_length num_chords, ?_, ?_⟩
  · intro combos
    simp [capSubmit, List.length_take]
  · rw [submittedUnits_length, pow_one]

/-- Witness for C2 at `num_chords = 1`. -/
theorem C2_witness :
    1 ≤ 1 ∧ (submittedUnits 1).length = templates.length :=
  ⟨le_refl 1, (C2_total_and_submission_cap 1 (le_refl 1)).2.2.2⟩

/-- C3: A failure inside a single Work Unit's render — the oracle
`renderRaises` marks the progressions on which the body of `_save_single`
raises — is caught and reported as the boolean `false` for that unit only:
the run's drained results are exactly each submitted unit's own
`save_single` outcome (so no unit's outcome depends on another unit's
failure, and the run is never aborted), and the number of processed units
still equals `total` whatever the oracle. -/
theorem C3_failure_isolation (renderRaises : List (List Int) → Bool)
    (num_chords : Nat) (output_dir : String) (max_workers : Nat) :
    (∀ progression, renderRaises progression = true →
      save_single renderRaises progression = false) ∧
    runResults renderRaises num_chords =
      (submittedUnits num_chords).map (save_single renderRaises) ∧
    (generate_all renderRaises num_chords output_dir max_workers).processed =
      (generate_all renderRaises num_chords output_dir max_workers).total := by
  refine ⟨?_, runResults_eq renderRaises num_chords, ?_⟩
  · intro progression hp
    simp [save_single, hp]
  · rw [generate_all_processed, runResults_eq]
    show ((submittedUnits num_chords).map (save_single renderRaises)).length =
      templates.length ^ num_chords
    rw [List.length_map, submittedUnits_length]

/-- Witness for C3 with an oracle that fails every unit, at
`num_chords = 1`. -/
theorem C3_witness :
    save_single (fun _ => true) [[48, 52, 55]] = false ∧
    (generate_all (fun _ => true) 1 "chord_output" 8).processed =
      (generate_all (fun _ => true) 1 "chord_output" 8).total :=
  ⟨(C3_failure_isolation (fun _ => true) 1 "chord_output" 8).1 _ rfl,
   (C3_failure_isolation (fun _ => true) 1 "chord_output" 8).2.2⟩

/-- C4: For any inclusive root range `[low, high]` with `low ≤ high`, the
catalog contains exactly `2 * (high - low + 1)` templates, each of length 3,
each equal to `[root + i for i in shape]` for some root in the range and shape
major or minor (so its sorted intervals from its minimum are `[0,4,7]` or
`[0,3,7]`), with all major-shape templates for the full root range listed
before all minor-shape templates. -/
theorem C4_catalog_shape (low high : Int) (h : low ≤ high) :
    (build_catalog low high).length = 2 * (high - low + 1).toNat ∧
    (∀ t ∈ build_catalog low high,
      t.length = 3 ∧
      (∃ root, low ≤ root ∧ root ≤ high ∧
        (t = mkTemplate major root ∨ t = mkTemplate minor root)) ∧
      (intervalsOf t = [0, 4, 7] ∨ intervalsOf t = [0, 3, 7])) ∧
    build_catalog low high =
      (rootRange low high).map (mkTemplate major) ++
      (rootRange low high).map (mkTemplate minor) := by
  refine ⟨?_, ?_, rfl⟩
  · unfold build_catalog
    rw [List.length_append, List.length_map, List.length_map,
      rootRange_length low high h]
    omega
  · intro t ht
    unfold build_catalog at ht
    rw [List.mem_append] at ht
    rcases ht with ht | ht
    · rw [List.mem_map] at ht
      obtain ⟨root, hroot, rfl⟩ := ht
      obtain ⟨hl, hh⟩ := rootRange_mem low high root hroot
      exact ⟨by simp [mkTemplate, major], ⟨root, hl, hh, Or.inl rfl⟩,
        Or.inl (intervalsOf_major root)⟩
    · rw [List.mem_map] at ht
      obtain ⟨root, hroot, rfl⟩ := ht
      obtain ⟨hl, hh⟩ := rootRange_mem low high root hroot
      exact ⟨by simp [mkTemplate, minor], ⟨root, hl, hh, Or.inr rfl⟩,
        Or.inr (intervalsOf_minor root)⟩

/-- Witness for C4 at the program's own range `[48, 59]`. -/
theorem C4_witness :
    (48 : Int) ≤ 59 ∧
    (build_catalog 48 59).length = 2 * ((59 : Int) - 48 + 1).toNat :=
  ⟨by decide, (C4_catalog_shape 48 59 (by decide)).1⟩

/-- C5 counterexample: the 3-note input `[48, 49, 50]` has sorted intervals
`[0, 1, 2]` — neither `[0,4,7]` nor `[0,3,7]` — yet naming does not fail: it
assigns chord type "minor" and returns the well-formed name "C_minor", so
"minor" is not assigned exactly on `[0,3,7]` and no interval pattern fails
loudly. -/
theorem C5_counterexample :
    intervalsOf [48, 49, 50] = [0, 1, 2] ∧
    chordTypeOf [48, 49, 50] = "minor" ∧
    get_chord_name [48, 49, 50] = "C_minor" := by decide

/-- C5 (amended): chord naming assigns "major" exactly when the sorted
intervals from the minimum note are `[0, 4, 7]`, and "minor" in every other
case (including `[0, 3, 7]` and any other interval pattern); a 3-note input
with a non-triad pattern is not rejected — the returned name is still the
well-formed `"{PitchName}_{chord_type}"` string. -/
theorem C5_amended_naming (notes : List Int) :
    (chordTypeOf notes = "major" ↔ intervalsOf notes = [0, 4, 7]) ∧
    (chordTypeOf notes = "minor" ↔ ¬ intervalsOf notes = [0, 4, 7]) ∧
    (intervalsOf notes = [0, 3, 7] → chordTypeOf notes = "minor") ∧
    get_chord_name notes =
      replaceDash (pitchNameRaw (pyMin notes)) ++ "_" ++ chordTypeOf notes := by
  unfold get_chord_name chordTypeOf
  by_cases h : intervalsOf notes = [0, 4, 7]
  · simp [h]
  · simp [h]

/-- Witness for C5 (amended) at the minor triad rooted at 48. -/
theorem C5_witness :
    intervalsOf [48, 51, 55] = [0, 3, 7] → chordTypeOf [48, 51, 55] = "minor" :=
  (C5_amended_naming [48, 51, 55]).2.2.1

/-- C6: `generate_all` yields a Run Summary whose `total` is the requested
count `len(templates) ** num_chords` and whose `processed` field counts the
units processed, successes and failures both counted. -/
theorem C6_run_summary (renderRaises : List (List Int) → Bool)
    (num_chords : Nat) (output_dir : String) (max_workers : Nat) :
    (generate_all renderRaises num_chords output_dir max_workers).total =
      templates.length ^ num_chords ∧
    (generate_all renderRaises num_chords output_dir max_workers).processed =
      (runResults renderRaises num_chords).count true +
        (runResults renderRaises num_chords).count false := by
  refine ⟨rfl, ?_⟩
  rw [generate_all_processed, count_true_add_count_false]

/-- Witness for C6 with a never-failing oracle at `num_chords = 1`. -/
theorem C6_witness :
    (generate_all (fun _ => false) 1 "chord_output" 8).total =
      templates.length ^ 1 :=
  (C6_run_summary (fun _ => false) 1 "chord_output" 8).1

/-- C7 counterexample: the entry point's default destination directory is
"chord_output", not "chord_progressions" (the latter is only passed explicitly
by the example invocation). -/
theorem C7_counterexample : default_output_dir ≠ "chord_progressions" := by
  decide

/-- C7 (amended): the entry point exposes three configuration options with
defaults `num_chords = 4`, `output_dir = "chord_output"` and
`max_workers = 8`; the in-flight cap `batch_size` is not a configuration
option but a constant fixed at 1000 inside `generate_all`. -/
theorem C7_amended_defaults :
    default_num_chords = 4 ∧
    default_output_dir = "chord_output" ∧
    default_max_workers = 8 ∧
    batch_size = 1000 := by
  decide

/-- C8 counterexample: the reference catalog has 24 templates
(12 roots 48..59 times 2 qualities), not 48. -/
theorem C8_counterexample :
    templates.length = 24 ∧ templates.length ≠ 48 := by decide

/-- C8 (amended): in the reference configuration the template catalog
contains 24 templates, so the default 4-chord enumeration spans
`24 ** 4 = 331776` combinations — which is the `total` computed by
`generate_all` at the default `num_chords`. -/
theorem C8_amended_counts :
    templates.length = 24 ∧
    templates.length ^ 4 = 331776 ∧
    (∀ (renderRaises : List (List Int) → Bool) (output_dir : String)
        (max_workers : Nat),
      (generate_all renderRaises default_num_chords output_dir
        max_workers).total = 331776) := by
  refine ⟨by decide, by decide, ?_⟩
  intro renderRaises output_dir max_workers
  show templates.length ^ default_num_chords = 331776
  decide

/-- Witness instantiating C8 (amended) at a concrete oracle and arguments. -/
theorem C8_witness :
    (generate_all (fun _ => false) default_num_chords "chord_output" 8).total =
      331776 :=
  C8_amended_counts.2.2 (fun _ => false) "chord_output" 8

/-- C9: naming the template `[48, 52, 55]` yields "C_major", and every
template whose pitch name carries a flat accidental has it rendered as the
ASCII character "b" — no template's name contains the library's internal flat
marker "-" (e.g. roots 51 and 58 name to "Eb_..." and "Bb_..."). -/
theorem C9_ascii_naming :
    get_chord_name [48, 52, 55] = "C_major" ∧
    get_chord_name (mkTemplate major 51) = "Eb_major" ∧
    get_chord_name (mkTemplate minor 58) = "Bb_minor" ∧
    (∀ t ∈ templates, '-' ∉ (get_chord_name t).data) := by decide

/-- Witness for C9 at the flat-rooted major template on 51. -/
theorem C9_witness :
    mkTemplate major 51 ∈ templates ∧
    '-' ∉ (get_chord_name (mkTemplate major 51)).data :=
  ⟨by decide, C9_ascii_naming.2.2.2 (mkTemplate major 51) (by decide)⟩

/-- C10: calling `generate_all` with `num_chords = 0` computes `total = 1`
(`K ** 0 = 1`), submits exactly one Work Unit whose progression is the empty
sequence, and that unit's filename is the empty join plus the extension —
the file ".mid" under `output_dir`. -/
theorem C10_num_chords_zero (output_dir : String) :
    (∀ (renderRaises : List (List Int) → Bool) (max_workers : Nat),
      (generate_all renderRaises 0 output_dir max_workers).total = 1) ∧
    submittedUnits 0 = [[]] ∧
    filenameOf [] = ".mid" ∧
    savePath output_dir [] = output_dir ++ "/" ++ ".mid" :=
  ⟨fun _ _ => rfl, rfl, rfl, rfl⟩

/-- Witness for C10 at the default output directory. -/
theorem C10_witness :
    submittedUnits 0 = [[]] ∧ filenameOf [] = ".mid" :=
  ⟨(C10_num_chords_zero "chord_output").2.1,
   (C10_num_chords_zero "chord_output").2.2.1⟩
